import Mathlib

/-!
Verification of the acquisition-and-caching pipeline of the us-pollution-app
repository: the retrying EPA fetcher `fetch_epa_data`, the orchestration loop
`load_pollution_data` over the locations × pollutants × years catalog, the
TTL-gated persistent cache `load_pollution_data_with_cache`
(src/epa_data_loader.py), and the tiered county geocoder `geocode_county` /
`add_coordinates_to_dataframe` (src/geocode_counties.py).

Effects are made explicit: the HTTP responses a single fetch sees are an
oracle indexed by attempt number, the per-WorkUnit outcomes the orchestrator
sees are an oracle over WorkUnits, timestamps are integer days, and the two
cache files are an explicit filesystem state.  Sleeps are recorded in a trace
rather than performed.
-/

namespace PollutionApp

/-! ## Credentials (epa_data_loader.py lines 11-12, 98-103, 214-224)

`os.getenv` yields `None` when the variable is unset; Python's `not x` is
true for both `None` and the empty string. -/

/-- Python truthiness test `not x` for an `os.getenv` result. -/
def strFalsy : Option String → Bool
  | none => true
  | some s => s.isEmpty

/-- The credential pair (EPA_EMAIL, EPA_API_KEY) read from the environment. -/
structure Creds where
  email : Option String
  apiKey : Option String
deriving DecidableEq

/-- The guard `not EPA_EMAIL or not EPA_API_KEY` (lines 98 and 215). -/
def credMissing (c : Creds) : Bool := strFalsy c.email || strFalsy c.apiKey

/-! ## The retrying fetcher `fetch_epa_data` (lines 79-151)

One loop iteration issues one HTTP request; the response the `attempt`-th
request receives is given by an oracle `Nat → ApiResponse`. -/

/-- What one `requests.get` call in `fetch_epa_data` can produce:
a 200 response whose parsed body has a non-empty `Data` field (`ok true`)
or not (`ok false`), a 429 rate-limit status, any other HTTP status code,
or a transport-level `requests` exception. -/
inductive ApiResponse
  | ok (hasData : Bool)
  | rateLimit
  | httpError (code : Nat)
  | transportError
deriving DecidableEq

/-- The error kinds `fetch_epa_data` can raise: the `ValueError` for missing
credentials (lines 99-103), the `RequestException` built from a non-2xx
response (line 139), and a transport exception from `requests.get` itself. -/
inductive FetchError
  | configError
  | requestError (code : Nat)
  | transportErr
deriving DecidableEq

/-- What `fetch_epa_data` finally does: return a DataFrame (`data`), return
`None` (`noData`), or raise an exception. -/
inductive FetchResult
  | data
  | noData
  | raised (e : FetchError)
deriving DecidableEq

/-- `true` exactly on the `raised` outcomes, i.e. the Failure outcomes of the
spec's FetchOutcome classification. -/
def FetchResult.isFailure : FetchResult → Bool
  | .raised _ => true
  | _ => false

/-- Observable behaviour of one `fetch_epa_data` call: its final result, the
list of `time.sleep` durations in seconds in the order they were performed,
and how many HTTP requests were issued. -/
structure FetchTrace where
  result : FetchResult
  sleeps : List Nat
  attempts : Nat
deriving DecidableEq

/-- The `for attempt in range(max_retries)` loop of lines 119-145, iterating
over the remaining attempt indices.  On 429 it sleeps `2 ** attempt` and
continues (lines 131-135); on any other error it records it as
`last_exception` and sleeps 1 second unless this was the final attempt
(lines 136-145); after the loop the last recorded exception is re-raised,
else `None` is returned (lines 147-151). -/
def fetchGo (s : Nat → ApiResponse) (maxRetries : Nat) :
    List Nat → Option FetchError → List Nat → FetchTrace
  | [], lastExc, sleeps =>
      { result := match lastExc with
          | some e => .raised e
          | none => .noData
        sleeps := sleeps
        attempts := maxRetries }
  | attempt :: rest, lastExc, sleeps =>
      match s attempt with
      | .ok true => { result := .data, sleeps := sleeps, attempts := attempt + 1 }
      | .ok false => { result := .noData, sleeps := sleeps, attempts := attempt + 1 }
      | .rateLimit =>
          fetchGo s maxRetries rest lastExc (sleeps ++ [2 ^ attempt])
      | .httpError c =>
          fetchGo s maxRetries rest (some (.requestError c))
            (sleeps ++ if attempt < maxRetries - 1 then [1] else [])
      | .transportError =>
          fetchGo s maxRetries rest (some .transportErr)
            (sleeps ++ if attempt < maxRetries - 1 then [1] else [])

/-- `fetch_epa_data` (lines 79-151): the credential guard of lines 98-103 runs
before any request; otherwise the retry loop runs over
`range(max_retries)`. -/
def fetchEpaData (creds : Creds) (s : Nat → ApiResponse)
    (maxRetries : Nat := 3) : FetchTrace :=
  if credMissing creds then
    { result := .raised .configError, sleeps := [], attempts := 0 }
  else
    fetchGo s maxRetries (List.range maxRetries) none []

/-! ## The static catalogs (epa_data_loader.py lines 15-76, 228-234) -/

/-- Every coordinate literal in the source has exactly four decimal places;
`dec4 n` is the exact rational `n / 10000`, so e.g. the source literal
`34.0522` is written `dec4 340522`.  (`mkRat` is used rather than a decimal literal so
that concrete runs reduce inside `decide`.) -/
def dec4 (n : Int) : ℚ := mkRat n 10000

/-- One entry of `CITIES_CONFIG`: a city with its FIPS codes and
coordinates. -/
structure City where
  city : String
  state : String
  county : String
  latitude : ℚ
  longitude : ℚ
deriving DecidableEq

/-- `CITIES_CONFIG` (lines 15-59). -/
def CITIES_CONFIG : List City := [
  ⟨"Los Angeles", "06", "037", dec4 340522, dec4 (-1182437)⟩,
  ⟨"New York", "36", "061", dec4 407128, dec4 (-740060)⟩,
  ⟨"Chicago", "17", "031", dec4 418781, dec4 (-876298)⟩,
  ⟨"Houston", "48", "201", dec4 297604, dec4 (-953698)⟩,
  ⟨"Phoenix", "04", "013", dec4 334484, dec4 (-1120740)⟩,
  ⟨"Philadelphia", "42", "101", dec4 399526, dec4 (-751652)⟩,
  ⟨"San Antonio", "48", "029", dec4 294241, dec4 (-984936)⟩,
  ⟨"San Diego", "06", "073", dec4 327157, dec4 (-1171611)⟩,
  ⟨"Dallas", "48", "113", dec4 327767, dec4 (-967970)⟩,
  ⟨"San Jose", "06", "085", dec4 373382, dec4 (-1218863)⟩,
  ⟨"Austin", "48", "453", dec4 302672, dec4 (-977431)⟩,
  ⟨"Jacksonville", "12", "031", dec4 303322, dec4 (-816557)⟩,
  ⟨"Fort Worth", "48", "439", dec4 327555, dec4 (-973308)⟩,
  ⟨"Columbus", "39", "049", dec4 399612, dec4 (-829988)⟩,
  ⟨"Charlotte", "37", "119", dec4 352271, dec4 (-808431)⟩,
  ⟨"San Francisco", "06", "075", dec4 377749, dec4 (-1224194)⟩,
  ⟨"Indianapolis", "18", "097", dec4 397684, dec4 (-861581)⟩,
  ⟨"Seattle", "53", "033", dec4 476062, dec4 (-1223321)⟩,
  ⟨"Denver", "08", "031", dec4 397392, dec4 (-1049903)⟩,
  ⟨"Boston", "25", "025", dec4 423601, dec4 (-710589)⟩,
  ⟨"El Paso", "48", "141", dec4 317619, dec4 (-1064850)⟩,
  ⟨"Detroit", "26", "163", dec4 423314, dec4 (-830458)⟩,
  ⟨"Nashville", "47", "037", dec4 361627, dec4 (-867816)⟩,
  ⟨"Portland", "41", "051", dec4 455152, dec4 (-1226784)⟩,
  ⟨"Las Vegas", "32", "003", dec4 361699, dec4 (-1151398)⟩,
  ⟨"Memphis", "47", "157", dec4 351495, dec4 (-900490)⟩,
  ⟨"Louisville", "21", "111", dec4 382527, dec4 (-857585)⟩,
  ⟨"Baltimore", "24", "510", dec4 392904, dec4 (-766122)⟩,
  ⟨"Milwaukee", "55", "079", dec4 430389, dec4 (-879065)⟩,
  ⟨"Albuquerque", "35", "001", dec4 350844, dec4 (-1066504)⟩,
  ⟨"Tucson", "04", "019", dec4 322226, dec4 (-1109747)⟩,
  ⟨"Fresno", "06", "019", dec4 367378, dec4 (-1197871)⟩,
  ⟨"Sacramento", "06", "067", dec4 385816, dec4 (-1214944)⟩,
  ⟨"Kansas City", "29", "095", dec4 390997, dec4 (-945786)⟩,
  ⟨"Atlanta", "13", "121", dec4 337490, dec4 (-843880)⟩,
  ⟨"Miami", "12", "086", dec4 257617, dec4 (-801918)⟩,
  ⟨"Cleveland", "39", "035", dec4 414993, dec4 (-816944)⟩,
  ⟨"New Orleans", "22", "071", dec4 299511, dec4 (-900715)⟩,
  ⟨"Minneapolis", "27", "053", dec4 449778, dec4 (-932650)⟩,
  ⟨"Tampa", "12", "057", dec4 279506, dec4 (-824572)⟩]

/-- `POLLUTANT_CODES` (lines 62-68), as the association list the dict
iterates in insertion order. -/
def POLLUTANT_CODES : List (String × String) :=
  [("PM2.5", "88101"), ("Ozone", "44201"), ("SO2", "42401"),
   ("NO2", "42602"), ("CO", "42101")]

/-- `POLLUTANT_UNITS` (lines 70-76). -/
def POLLUTANT_UNITS : List (String × String) :=
  [("PM2.5", "μg/m³"), ("Ozone", "ppm"), ("SO2", "ppb"),
   ("NO2", "ppb"), ("CO", "ppm")]

/-- A pollutant as the orchestrator consumes it: the dict key, the EPA
parameter code, and its canonical unit from `POLLUTANT_UNITS`. -/
structure Pollutant where
  name : String
  code : String
  unit : String
deriving DecidableEq

/-- The five pollutants of `POLLUTANT_CODES` bundled with their
`POLLUTANT_UNITS` entries. -/
def POLLUTANTS : List Pollutant :=
  [⟨"PM2.5", "88101", "μg/m³"⟩, ⟨"Ozone", "44201", "ppm"⟩,
   ⟨"SO2", "42401", "ppb"⟩, ⟨"NO2", "42602", "ppb"⟩,
   ⟨"CO", "42101", "ppm"⟩]

/-- `years_to_fetch` (line 234): every 2 years over 1980-1998, then annually
from 2000 through the current year. -/
def yearsToFetch (currentYear : Nat) : List Nat :=
  (List.range 10).map (fun i => 1980 + 2 * i) ++
    (List.range (currentYear + 1 - 2000)).map (fun i => 2000 + i)

/-! ## The acquisition orchestrator `load_pollution_data` (lines 202-314) -/

/-- One (city, pollutant, year) combination, enumerated by the three nested
loops of lines 244-249. -/
structure WorkUnit where
  city : City
  pollutant : Pollutant
  year : Nat
deriving DecidableEq

/-- The fields of one EPA response row that lines 266-281 consume: the year,
the `state_code` column, and the `arithmetic_mean` value. -/
structure RawRecord where
  year : Nat
  state_code : String
  arithmetic_mean : ℚ
deriving DecidableEq

/-- One row of the assembled dataset after the column selection and rename of
lines 279-281. -/
structure MeasurementRow where
  year : Nat
  city : String
  state : String
  latitude : ℚ
  longitude : ℚ
  pollutant : String
  value : ℚ
  unit : String
deriving DecidableEq

/-- The per-row processing of lines 268-281: attach the city's name and
coordinates, the pollutant name and its canonical unit, and take
`arithmetic_mean` as the value. -/
def processRows (c : City) (p : Pollutant) (rows : List RawRecord) :
    List MeasurementRow :=
  rows.map (fun r =>
    ⟨r.year, c.city, r.state_code, c.latitude, c.longitude, p.name,
     r.arithmetic_mean, p.unit⟩)

/-- What one `fetch_epa_data` call looks like from the orchestrator's side:
it returns `None`, returns a DataFrame (a list of raw rows), or raises an
exception carrying a message. -/
inductive FetchSim
  | ret (df : Option (List RawRecord))
  | raiseExc (msg : String)
deriving DecidableEq

/-- One entry of the orchestrator's `errors` list: line 286 formats the
pollutant name, city, year and exception text into the recorded message. -/
structure ErrEntry where
  pollutant : String
  city : String
  year : Nat
  msg : String
deriving DecidableEq

/-- The error entry line 286 records for a failed WorkUnit. -/
def mkErr (u : WorkUnit) (msg : String) : ErrEntry :=
  ⟨u.pollutant.name, u.city.city, u.year, msg⟩

/-- The loop state of `load_pollution_data`: the `all_data` batches, the
`errors` list, and the `completed_requests` counter (lines 226, 240-242). -/
structure OrchState where
  allData : List (List MeasurementRow)
  errors : List ErrEntry
  completed : Nat
deriving DecidableEq

/-- One iteration of the innermost loop body (lines 253-289): on a returned
non-empty DataFrame the processed batch is appended to `all_data`; a `None`
or empty DataFrame contributes nothing (line 266); an exception is appended
to `errors`; `completed_requests` is incremented in every case. -/
def stepUnit (fetch : WorkUnit → FetchSim) (st : OrchState) (u : WorkUnit) :
    OrchState :=
  match fetch u with
  | .ret none => { st with completed := st.completed + 1 }
  | .ret (some rows) =>
      if rows.isEmpty then { st with completed := st.completed + 1 }
      else { st with
              allData := st.allData ++ [processRows u.city u.pollutant rows]
              completed := st.completed + 1 }
  | .raiseExc msg =>
      { st with
          errors := st.errors ++ [mkErr u msg]
          completed := st.completed + 1 }

/-- The catalog enumerated by the nested loops of lines 244-249: cities
outermost, then pollutants, then years. -/
def workUnits (cities : List City) (pollutants : List Pollutant)
    (years : List Nat) : List WorkUnit :=
  cities.flatMap (fun c =>
    pollutants.flatMap (fun p => years.map (fun y => ⟨c, p, y⟩)))

/-- The two ways `load_pollution_data` terminates abnormally: the
credentials `ValueError` of lines 215-224 and the `RuntimeError` of lines
296-303 carrying the first 10 recorded errors. -/
inductive LoadError
  | configError
  | totalFailure (summary : List ErrEntry)
deriving DecidableEq

/-- `load_pollution_data` (lines 202-314): check credentials, run the
WorkUnit loop, and either raise the `RuntimeError` with the first 10 errors
when `all_data` stayed empty (lines 294-303) or return the concatenated
dataset (line 305) together with the printed error log. -/
def loadPollutionData (creds : Creds) (fetch : WorkUnit → FetchSim)
    (cities : List City) (pollutants : List Pollutant) (years : List Nat) :
    Except LoadError (List MeasurementRow × List ErrEntry) :=
  if credMissing creds then .error .configError
  else
    let final := (workUnits cities pollutants years).foldl (stepUnit fetch)
      ⟨[], [], 0⟩
    if final.allData.isEmpty then .error (.totalFailure (final.errors.take 10))
    else .ok (final.allData.flatten, final.errors)

/-- The batches the loop appends to `all_data`: one per WorkUnit whose fetch
returned a non-empty DataFrame, in catalog order. -/
def successBatches (fetch : WorkUnit → FetchSim) (units : List WorkUnit) :
    List (List MeasurementRow) :=
  units.filterMap (fun u =>
    match fetch u with
    | .ret (some rows) =>
        if rows.isEmpty then none else some (processRows u.city u.pollutant rows)
    | _ => none)

/-- The error log the loop accumulates: one tagged entry per WorkUnit whose
fetch raised, in catalog order. -/
def failureLog (fetch : WorkUnit → FetchSim) (units : List WorkUnit) :
    List ErrEntry :=
  units.filterMap (fun u =>
    match fetch u with
    | .raiseExc msg => some (mkErr u msg)
    | _ => none)

/-- The spec's three-way FetchOutcome classification of one WorkUnit. -/
inductive FetchOutcome
  | success
  | empty
  | failure
deriving DecidableEq

/-- How the orchestrator's guard of line 266 and the handler of line 285
classify one fetch: a non-empty DataFrame is a Success, a `None` or an empty
DataFrame is Empty, an exception is a Failure. -/
def classify : FetchSim → FetchOutcome
  | .ret none => .empty
  | .ret (some rows) => if rows.isEmpty then .empty else .success
  | .raiseExc _ => .failure

/-! ## The cache manager `load_pollution_data_with_cache` (lines 154-199)

Timestamps are modelled at day granularity: `(datetime.now() - cache_date).days`
becomes integer subtraction of day numbers, which is exact for the whole-day
ages the TTL check compares. -/

/-- Parsing `cache_metadata.json` (lines 167-170): either it yields a
timestamp (as a day number) or the read/parse raises. -/
inductive MetaParse
  | okMeta (ts : Int)
  | corrupt
deriving DecidableEq

/-- Parsing the cached CSV with `pd.read_csv` (line 175): either it yields
the cached rows or the read raises. -/
inductive CsvParse
  | okCsv (rows : List MeasurementRow)
  | corrupt
deriving DecidableEq

/-- The on-disk cache as the loader sees it: each file is absent (`none`) or
present with a parse behaviour. -/
structure CacheFiles where
  csvFile : Option CsvParse
  metaFile : Option MetaParse
deriving DecidableEq

/-- The cache-read phase, lines 165-181: both files must exist; any exception
while reading (corrupt metadata or corrupt CSV) falls through to a fresh
fetch, as does an age of 365 days or more. -/
def cacheLookup (nowDay : Int) (files : CacheFiles) :
    Option (List MeasurementRow) :=
  match files.csvFile, files.metaFile with
  | some csvP, some metaP =>
      match metaP with
      | .okMeta ts =>
          if nowDay - ts < 365 then
            match csvP with
            | .okCsv rows => some rows
            | .corrupt => none
          else none
      | .corrupt => none
  | _, _ => none

/-- What `load_pollution_data_with_cache` returns, plus which path produced
it: whether the network acquisition ran, whether the data came from the
cache, and whether the persist step failed and printed its warning
(line 197). -/
structure CacheRunResult where
  data : List MeasurementRow
  usedNetwork : Bool
  fromCache : Bool
  warnedPersist : Bool
deriving DecidableEq

/-- The fresh-fetch path, lines 184-199: run `load_pollution_data` (its
exceptions propagate), then attempt to persist; a persist failure is caught,
warned about, and the dataset is returned regardless. -/
def acquireFresh (creds : Creds) (fetch : WorkUnit → FetchSim)
    (cities : List City) (pollutants : List Pollutant) (years : List Nat)
    (persistFails : Bool) : Except LoadError CacheRunResult :=
  match loadPollutionData creds fetch cities pollutants years with
  | .error e => .error e
  | .ok (recs, _errs) => .ok ⟨recs, true, false, persistFails⟩

/-- `load_pollution_data_with_cache` (lines 154-199): serve a fresh parsed
snapshot from disk without touching the network, otherwise acquire and
persist. -/
def loadPollutionDataWithCache (nowDay : Int) (files : CacheFiles)
    (creds : Creds) (fetch : WorkUnit → FetchSim) (cities : List City)
    (pollutants : List Pollutant) (years : List Nat) (persistFails : Bool) :
    Except LoadError CacheRunResult :=
  match cacheLookup nowDay files with
  | some rows => .ok ⟨rows, false, true, false⟩
  | none => acquireFresh creds fetch cities pollutants years persistFails

/-! ## The persist step as a filesystem trace (lines 186-197)

Line 188 overwrites the CSV in place with `df.to_csv`, then lines 189-194
overwrite the metadata JSON in place; there is no write-to-temp-then-rename.
We model the filesystem at the granularity of whole-file writes and record
the state after each of the two writes. -/

/-- The metadata object of lines 190-194: timestamp, record count, and the
year span (min and max of the `year` column; the save path is only reached
with a non-empty dataset, since `load_pollution_data` raises otherwise). -/
structure CacheMeta where
  timestamp : Int
  recordCount : Nat
  yearLo : Nat
  yearHi : Nat
deriving DecidableEq

/-- Minimum of a year column, `df['year'].min()`. -/
def yearsMin : List Nat → Nat
  | [] => 0
  | y :: ys => ys.foldl min y

/-- Maximum of a year column, `df['year'].max()`. -/
def yearsMax : List Nat → Nat
  | [] => 0
  | y :: ys => ys.foldl max y

/-- The metadata lines 190-194 serialize for a dataset. -/
def mkCacheMeta (nowDay : Int) (rows : List MeasurementRow) : CacheMeta :=
  ⟨nowDay, rows.length, yearsMin (rows.map MeasurementRow.year),
   yearsMax (rows.map MeasurementRow.year)⟩

/-- The two cache files as whole-file contents. -/
structure FsState where
  csvFile : Option (List MeasurementRow)
  metaFile : Option CacheMeta
deriving DecidableEq

/-- The filesystem states a reader can observe around the persist step of
lines 186-197: before any write, after the in-place CSV write of line 188,
and after the in-place metadata write of lines 189-194. -/
def saveCacheStates (init : FsState) (rows : List MeasurementRow)
    (nowDay : Int) : List FsState :=
  [init,
   { init with csvFile := some rows },
   { csvFile := some rows, metaFile := some (mkCacheMeta nowDay rows) }]

/-- An atomic persist in the sense of the spec: at every observable point the
filesystem holds either the prior snapshot or the complete new one. -/
def AtomicPersist (trace : List FsState) : Prop :=
  ∀ s ∈ trace, trace.head? = some s ∨ trace.getLast? = some s

instance (trace : List FsState) : Decidable (AtomicPersist trace) := by
  unfold AtomicPersist
  infer_instance

/-! ## The tiered location resolver (geocode_counties.py) -/

/-- `COUNTY_COORDINATES` (lines 14-102): the static (county, state) →
(latitude, longitude) table, in source order. -/
def COUNTY_COORDINATES : List ((String × String) × (ℚ × ℚ)) := [
  (("Loudoun", "VA"), (dec4 390438, dec4 (-774874))),
  (("Fairfax", "VA"), (dec4 388462, dec4 (-773064))),
  (("Prince William", "VA"), (dec4 387932, dec4 (-774605))),
  (("Henrico", "VA"), (dec4 375407, dec4 (-774360))),
  (("Santa Clara", "CA"), (dec4 373541, dec4 (-1219552))),
  (("Alameda", "CA"), (dec4 377652, dec4 (-1222416))),
  (("Los Angeles", "CA"), (dec4 340522, dec4 (-1182437))),
  (("San Francisco", "CA"), (dec4 377749, dec4 (-1224194))),
  (("San Mateo", "CA"), (dec4 375630, dec4 (-1223255))),
  (("Orange", "CA"), (dec4 337175, dec4 (-1178311))),
  (("Sacramento", "CA"), (dec4 385816, dec4 (-1214944))),
  (("San Diego", "CA"), (dec4 327157, dec4 (-1171611))),
  (("Dallas", "TX"), (dec4 327767, dec4 (-967970))),
  (("Harris", "TX"), (dec4 297604, dec4 (-953698))),
  (("Bexar", "TX"), (dec4 294241, dec4 (-984936))),
  (("Collin", "TX"), (dec4 331972, dec4 (-966397))),
  (("Tarrant", "TX"), (dec4 327555, dec4 (-973308))),
  (("Travis", "TX"), (dec4 302672, dec4 (-977431))),
  (("Maricopa", "AZ"), (dec4 334484, dec4 (-1120740))),
  (("Pima", "AZ"), (dec4 322217, dec4 (-1109265))),
  (("Cook", "IL"), (dec4 418781, dec4 (-876298))),
  (("DuPage", "IL"), (dec4 418500, dec4 (-880834))),
  (("Fulton", "GA"), (dec4 337490, dec4 (-843880))),
  (("Douglas", "GA"), (dec4 337468, dec4 (-847452))),
  (("Hudson", "NJ"), (dec4 407434, dec4 (-740324))),
  (("Middlesex", "NJ"), (dec4 404862, dec4 (-744518))),
  (("Essex", "NJ"), (dec4 407834, dec4 (-742299))),
  (("Passaic", "NJ"), (dec4 408587, dec4 (-742282))),
  (("Franklin", "OH"), (dec4 399612, dec4 (-829988))),
  (("Licking", "OH"), (dec4 400581, dec4 (-824013))),
  (("Washington", "OR"), (dec4 455272, dec4 (-1229360))),
  (("Morrow", "OR"), (dec4 454948, dec4 (-1195508))),
  (("Umatilla", "OR"), (dec4 456354, dec4 (-1188447))),
  (("Pottawattamie", "IA"), (dec4 412619, dec4 (-958608))),
  (("Polk", "IA"), (dec4 415868, dec4 (-936250))),
  (("Mecklenberg", "NC"), (dec4 352271, dec4 (-808431))),
  (("Catawba", "NC"), (dec4 356918, dec4 (-812151))),
  (("Grant", "WA"), (dec4 472087, dec4 (-1194094))),
  (("Douglas", "NE"), (dec4 412565, dec4 (-959345))),
  (("Sarpy", "NE"), (dec4 411175, dec4 (-960422))),
  (("New York", "NY"), (dec4 407128, dec4 (-740060))),
  (("Westchester", "NY"), (dec4 411220, dec4 (-737949))),
  (("Middlesex", "MA"), (dec4 424868, dec4 (-713824))),
  (("Suffolk", "MA"), (dec4 423601, dec4 (-710589))),
  (("Arapahoe", "CO"), (dec4 396433, dec4 (-1043005))),
  (("Denver", "CO"), (dec4 397392, dec4 (-1049903))),
  (("Adams", "CO"), (dec4 398747, dec4 (-1043339))),
  (("Clark", "NV"), (dec4 361699, dec4 (-1151398))),
  (("Salt Lake", "UT"), (dec4 407608, dec4 (-1118910))),
  (("Hennepin", "MN"), (dec4 449778, dec4 (-932650)))]

/-- The dict lookup `COUNTY_COORDINATES[(county, state)]` guarded by the
membership test of line 158 (the table's keys are pairwise distinct, so the
first match is the dict entry). -/
def lookupCounty (county state : String) : Option (ℚ × ℚ) :=
  (COUNTY_COORDINATES.find? (fun e => e.1 = (county, state))).map (fun e => e.2)

/-- The fallback sentinel of lines 170 and 217: the continental US center. -/
def US_CENTER : ℚ × ℚ := (dec4 398283, dec4 (-985795))

/-- What the single Census geocoding request of `geocode_county_census`
(lines 105-141) can produce: a 200 response with its list of address-match
coordinates, a non-200 status, or a raised exception (timeout, transport or
parse failure) which line 138 catches. -/
inductive CensusResp
  | okResp (addressMatches : List (ℚ × ℚ))
  | httpFail (code : Nat)
  | excRaised
deriving DecidableEq

/-- `geocode_county_census` (lines 105-141): on a 200 response with at least
one address match, the first match's coordinates; in every other case
(no match, non-200 status, or a caught exception) `None`. -/
def geocodeCountyCensus (resp : CensusResp) : Option (ℚ × ℚ) :=
  match resp with
  | .okResp ms => ms.head?
  | _ => none

/-- Observable behaviour of one `geocode_county` call: the coordinates, how
many Census requests were issued, and whether the fallback warning of line
168 was printed. -/
structure GeoResult where
  coords : ℚ × ℚ
  networkCalls : Nat
  warned : Bool
deriving DecidableEq

/-- `geocode_county` (lines 144-172): static table, then one Census attempt,
then (with `use_fallback`, default true) the sentinel with a warning;
without the fallback an unresolved pair raises the `ValueError` of
line 172. -/
def geocodeCounty (county state : String) (resp : CensusResp)
    (useFallback : Bool := true) : Except String GeoResult :=
  match lookupCounty county state with
  | some p => .ok ⟨p, 0, false⟩
  | none =>
      match geocodeCountyCensus resp with
      | some c => .ok ⟨c, 1, false⟩
      | none =>
          if useFallback then .ok ⟨US_CENTER, 1, true⟩
          else .error ("Could not geocode " ++ county ++ ", " ++ state)

/-! ## Batch enrichment `add_coordinates_to_dataframe` (lines 175-227) -/

/-- One DataFrame row as the enrichment step sees it: the county and state
cells (which may be null) and the two coordinate columns. -/
structure GeoRow where
  county : Option String
  state : Option String
  latitude : ℚ
  longitude : ℚ
deriving DecidableEq

/-- `drop_duplicates` on the (county, state) projection (line 198): keep the
first occurrence of each pair, in order. -/
def dedupPairs (l : List (Option String × Option String)) :
    List (Option String × Option String) :=
  l.foldl (fun acc p => if p ∈ acc then acc else acc ++ [p]) []

/-- The resolution loop of lines 201-217 over the unique pairs: pairs with a
null county or state are skipped (lines 205-206); otherwise `geocode_county`
(modelled as an oracle, since the loop's `except` of lines 215-217 catches
anything it raises) fills `location_coords`, with the sentinel and a printed
error identifying the pair on an exception.  Returns the memo table and the
list of pairs the `except` branch reported. -/
def resolveLocations (g : String → String → Except String (ℚ × ℚ))
    (pairs : List (Option String × Option String)) :
    List ((String × String) × (ℚ × ℚ)) × List (String × String) :=
  pairs.foldl (fun acc p =>
    match p with
    | (some c, some s) =>
        match g c s with
        | .ok coords => (acc.1 ++ [((c, s), coords)], acc.2)
        | .error _ => (acc.1 ++ [((c, s), US_CENTER)], acc.2 ++ [(c, s)])
    | _ => acc) ([], [])

/-- The apply loop of lines 220-223: for each memoized pair, overwrite the
coordinate columns of every row whose county and state cells equal it (a
null cell compares unequal to every value, as in pandas). -/
def applyCoords (memo : List ((String × String) × (ℚ × ℚ)))
    (df : List GeoRow) : List GeoRow :=
  memo.foldl (fun d entry =>
    d.map (fun r =>
      if r.county = some entry.1.1 ∧ r.state = some entry.1.2 then
        { r with latitude := entry.2.1, longitude := entry.2.2 }
      else r)) df

/-- `add_coordinates_to_dataframe` (lines 175-227): initialize both
coordinate columns to 0.0 (lines 192-193), resolve each unique non-null
(county, state) pair once, and apply the memo table.  Returns the enriched
rows and the pairs reported by the resolution loop's error branch. -/
def addCoordinatesToDataframe (g : String → String → Except String (ℚ × ℚ))
    (df : List GeoRow) : List GeoRow × List (String × String) :=
  let df0 := df.map (fun r => { r with latitude := 0, longitude := 0 })
  let uniq := dedupPairs (df.map (fun r => (r.county, r.state)))
  let resolved := resolveLocations g uniq
  (applyCoords resolved.1 df0, resolved.2)

/-- Equality of `Except` results is decidable when both components are, so
concrete runs of the orchestrator and cache manager can be evaluated. -/
instance exceptDecEq {ε α : Type} [DecidableEq ε] [DecidableEq α] :
    DecidableEq (Except ε α) := fun a b =>
  match a, b with
  | .ok x, .ok y =>
      if h : x = y then isTrue (by rw [h])
      else isFalse (fun he => h (Except.ok.inj he))
  | .error x, .error y =>
      if h : x = y then isTrue (by rw [h])
      else isFalse (fun he => h (Except.error.inj he))
  | .ok _, .error _ => isFalse (fun he => Except.noConfusion he)
  | .error _, .ok _ => isFalse (fun he => Except.noConfusion he)

/-! ## Statement helpers

Closed-form descriptions of the fetch loop's exhaustion behaviour, used to
state properties of `fetchEpaData`; they mirror how the loop accumulates
`last_exception` and its sleeps. -/

/-- Responses that do not end the loop with a `return`: everything except a
200 response. -/
def isErrorResp : ApiResponse → Bool
  | .ok _ => false
  | _ => true

/-- The exception (if any) one response makes the loop record as
`last_exception`: a 429 records nothing. -/
def errOf : ApiResponse → Option FetchError
  | .httpError c => some (.requestError c)
  | .transportError => some .transportErr
  | _ => none

/-- The `last_exception` value after the three attempts of a default run have
all failed: the latest response that recorded an exception wins. -/
def lastExcOf3 (s : Nat → ApiResponse) : Option FetchError :=
  match errOf (s 2) with
  | some e => some e
  | none =>
      match errOf (s 1) with
      | some e => some e
      | none => errOf (s 0)

/-- What lines 147-151 produce once the loop exhausts: re-raise the last
recorded exception, else return `None`. -/
def expectedExhaustResult (s : Nat → ApiResponse) : FetchResult :=
  match lastExcOf3 s with
  | some e => .raised e
  | none => .noData

/-- The sleeps one non-returning response causes: `2 ** attempt` on a 429,
1 second on any other error unless this was the final attempt. -/
def retrySleeps (attempt maxRetries : Nat) : ApiResponse → List Nat
  | .rateLimit => [2 ^ attempt]
  | .ok _ => []
  | .httpError _ => if attempt < maxRetries - 1 then [1] else []
  | .transportError => if attempt < maxRetries - 1 then [1] else []

/-- The full sleep trace of a default 3-attempt run that exhausts. -/
def exhaustSleeps3 (s : Nat → ApiResponse) : List Nat :=
  retrySleeps 0 3 (s 0) ++ retrySleeps 1 3 (s 1) ++ retrySleeps 2 3 (s 2)

/-! ## Concrete fixtures for witnesses and counterexamples -/

/-- A configured credential pair. -/
def credsOk : Creds := ⟨some "user@example.com", some "abc123"⟩

/-- A response script: every request is rate-limited. -/
def script3RL : Nat → ApiResponse := fun _ => .rateLimit

/-- A response script: three consecutive rate limits, then success — the
scenario of the backoff-growth property. -/
def rlThenSuccess : Nat → ApiResponse := fun n =>
  if n < 3 then .rateLimit else .ok true

/-- A response script: two rate limits, then a successful third attempt. -/
def rlRLok : Nat → ApiResponse := fun n =>
  if n < 2 then .rateLimit else .ok true

/-- A response script mixing transport, HTTP and rate-limit failures. -/
def mixedErrScript : Nat → ApiResponse := fun n =>
  if n = 0 then .transportError
  else if n = 1 then .httpError 500
  else .rateLimit

/-- The first `CITIES_CONFIG` entry. -/
def cityLA : City := ⟨"Los Angeles", "06", "037", dec4 340522, dec4 (-1182437)⟩

/-- The second `CITIES_CONFIG` entry. -/
def cityNY : City := ⟨"New York", "36", "061", dec4 407128, dec4 (-740060)⟩

/-- The first `POLLUTANT_CODES` entry with its unit. -/
def pm25 : Pollutant := ⟨"PM2.5", "88101", "μg/m³"⟩

/-- A WorkUnit oracle in which every fetch returns `None` (the Empty
outcome). -/
def emptyFetch : WorkUnit → FetchSim := fun _ => .ret none

/-- A raw EPA response row for the year 2001. -/
def rawRec2001 : RawRecord := ⟨2001, "06", 12⟩

/-- A raw EPA response row for the year 2000. -/
def rawRec2000 : RawRecord := ⟨2000, "06", 12⟩

/-- A WorkUnit oracle that raises for year 2000 and returns one row
otherwise. -/
def mixedFetch : WorkUnit → FetchSim := fun u =>
  if u.year = 2000 then .raiseExc "boom" else .ret (some [rawRec2001])

/-- A WorkUnit oracle in which every fetch returns one row for 2000. -/
def goodFetch : WorkUnit → FetchSim := fun _ => .ret (some [rawRec2000])

/-- A cached dataset of one row. -/
def demoRows : List MeasurementRow :=
  [⟨1999, "Los Angeles", "06", dec4 340522, dec4 (-1182437), "PM2.5", 9, "μg/m³"⟩]

/-- A prior persisted snapshot: one 1990 row with its metadata. -/
def fsPrior : FsState :=
  ⟨some [⟨1990, "Los Angeles", "06", dec4 340522, dec4 (-1182437), "PM2.5", 10, "μg/m³"⟩],
   some ⟨0, 1, 1990, 1990⟩⟩

/-- The dataset of one 2001 row that a fresh run persists. -/
def freshPersistRows : List MeasurementRow :=
  [⟨2001, "New York", "36", dec4 407128, dec4 (-740060), "Ozone", dec4 300, "ppm"⟩]

/-- A DataFrame row whose county cell is null. -/
def nullCountyRow : GeoRow := ⟨none, some "CA", 5, 6⟩

/-- A DataFrame row with both cells present. -/
def scRow : GeoRow := ⟨some "Santa Clara", some "CA", 7, 8⟩

/-- A geocoding oracle that always resolves to a fixed coordinate. -/
def constGeo : String → String → Except String (ℚ × ℚ) :=
  fun _ _ => .ok (1, 2)

/-! ## General lemmas about the embedded operations -/

/-- `List.range 3` spelled out, for rewriting the concrete 3-attempt loop. -/
lemma range_three : List.range 3 = [0, 1, 2] := rfl

/-- `dec4` is division by 10000, so `dec4 n` encodes the four-decimal
source literal `n / 10000` exactly. -/
lemma dec4_eq (n : Int) : dec4 n = (n : ℚ) / 10000 := by
  rw [dec4, Rat.mkRat_eq_div]
  norm_num

/-- Sample: the encoding of the source literal `34.0522` agrees with the
decimal literal itself. -/
lemma dec4_sample : dec4 340522 = 34.0522 := by
  rw [dec4_eq]
  norm_num

/-- `POLLUTANTS` agrees with the two source dicts entry by entry. -/
lemma pollutants_faithful :
    POLLUTANTS.map (fun p => (p.name, p.code)) = POLLUTANT_CODES ∧
      POLLUTANTS.map (fun p => (p.name, p.unit)) = POLLUTANT_UNITS := by
  decide

/-- Both halves of `years_to_fetch` are duplicate-free and the first half
stays below 2000 while the second starts at 2000, so the whole list has no
duplicate year, whatever the current year is. -/
lemma yearsToFetch_nodup (currentYear : Nat) :
    (yearsToFetch currentYear).Nodup := by
  unfold yearsToFetch
  refine List.Nodup.append ?_ ?_ ?_
  · exact (List.nodup_range 10).map (fun a b h => by omega)
  · exact (List.nodup_range _).map (fun a b h => by omega)
  · intro x hx hy
    simp only [List.mem_map, List.mem_range] at hx hy
    obtain ⟨i, hi, rfl⟩ := hx
    obtain ⟨j, hj, hji⟩ := hy
    omega

/-- Running the WorkUnit loop from any state appends exactly the successful
batches to `all_data`, the failures' entries to `errors`, and one completed
request per WorkUnit. -/
lemma foldl_stepUnit (fetch : WorkUnit → FetchSim) (units : List WorkUnit)
    (st : OrchState) :
    units.foldl (stepUnit fetch) st =
      ⟨st.allData ++ successBatches fetch units,
       st.errors ++ failureLog fetch units,
       st.completed + units.length⟩ := by
  induction units generalizing st with
  | nil => simp [successBatches, failureLog]
  | cons u rest ih =>
    simp only [List.foldl_cons, ih, successBatches, failureLog,
      List.filterMap_cons, stepUnit]
    cases h : fetch u with
    | ret df =>
      cases df with
      | none => simp [successBatches, failureLog, Nat.add_comm, Nat.add_assoc,
          Nat.add_left_comm]
      | some rows =>
        by_cases he : rows.isEmpty <;>
          simp [he, successBatches, failureLog, Nat.add_comm, Nat.add_assoc,
            Nat.add_left_comm]
    | raiseExc msg => simp [successBatches, failureLog, Nat.add_comm,
        Nat.add_assoc, Nat.add_left_comm]

/-- Every outcome is exactly one of Success, Empty, Failure, so the three
counts partition any outcome list. -/
lemma count_outcomes (l : List FetchOutcome) :
    l.count .success + l.count .empty + l.count .failure = l.length := by
  induction l with
  | nil => simp
  | cons a rest ih =>
    cases a <;> simp [List.count_cons] <;> omega

/-- The nested loop enumeration equals the map of the list cross-product. -/
lemma workUnits_eq_product (cities : List City) (pollutants : List Pollutant)
    (years : List Nat) :
    workUnits cities pollutants years =
      ((cities.product (pollutants.product years)).map
        (fun t => ⟨t.1, t.2.1, t.2.2⟩)) := by
  simp only [workUnits, List.product, List.map_flatMap, List.map_map]
  rfl

/-- The catalog size is the product of the three catalog sizes. -/
lemma workUnits_length (cities : List City) (pollutants : List Pollutant)
    (years : List Nat) :
    (workUnits cities pollutants years).length =
      cities.length * pollutants.length * years.length := by
  rw [workUnits_eq_product, List.length_map]
  rw [show cities.product (pollutants.product years)
        = cities ×ˢ (pollutants ×ˢ years) from rfl]
  rw [List.length_product, List.length_product, Nat.mul_assoc]

/-- Duplicate-free catalogs enumerate a duplicate-free WorkUnit list. -/
lemma workUnits_nodup {cities : List City} {pollutants : List Pollutant}
    {years : List Nat} (h1 : cities.Nodup) (h2 : pollutants.Nodup)
    (h3 : years.Nodup) : (workUnits cities pollutants years).Nodup := by
  rw [workUnits_eq_product]
  refine (h1.product (h2.product h3)).map ?_
  intro a b hab
  simp only [WorkUnit.mk.injEq] at hab
  obtain ⟨hc, hp, hy⟩ := hab
  exact Prod.ext hc (Prod.ext hp hy)

/-! ## Claim C2 — backoff growth and the attempt ceiling -/

/-- Claim C2, counterexample: for a WorkUnit that receives three consecutive
rate-limit responses followed by a success, the code does record the delays
1s, 2s, 4s, but it never makes a 4th attempt: the `range(max_retries)` loop
issues exactly 3 requests and then returns `None`, so the final call does
not succeed as the claim states. -/
theorem claim2_counterexample :
    fetchEpaData credsOk rlThenSuccess 3 =
      { result := .noData, sleeps := [1, 2, 4], attempts := 3 }
    ∧ (fetchEpaData credsOk rlThenSuccess 3).attempts ≠ 4
    ∧ (fetchEpaData credsOk rlThenSuccess 3).result ≠ .data := by
  decide

/-- Claim C2, amended: on each rate-limit response the Fetcher sleeps
`2 ** attempt` seconds (attempt starting at 0) and retries, but the ceiling
of 3 is a ceiling on total attempts, not retries after the first try: three
consecutive rate-limit responses exhaust the loop after non-decreasing
delays of 1s, 2s and 4s and the fetch returns the no-data outcome without a
4th attempt, while two rate-limit responses followed by a success yield
delays 1s, 2s and a successful 3rd attempt. -/
theorem claim2_amended (creds : Creds) (hc : credMissing creds = false) :
    fetchEpaData creds rlThenSuccess 3 =
      { result := .noData, sleeps := [1, 2, 4], attempts := 3 }
    ∧ fetchEpaData creds rlRLok 3 =
      { result := .data, sleeps := [1, 2], attempts := 3 }
    ∧ List.Chain' (· ≤ ·) [1, 2, 4] := by
  refine ⟨?_, ?_, by norm_num [List.chain'_cons]⟩ <;>
    · simp only [fetchEpaData, hc]; decide

/-- Claim C2, witness: the amended statement at the configured credential
pair. -/
theorem claim2_witness :
    credMissing credsOk = false
    ∧ fetchEpaData credsOk rlRLok 3 =
        { result := .data, sleeps := [1, 2], attempts := 3 } :=
  ⟨by decide, (claim2_amended credsOk (by decide)).2.1⟩

/-! ## Claim C3 — what an exhausted fetch returns -/

/-- Claim C3, counterexample: a fetch whose three attempts are all
rate-limited exhausts the attempt ceiling without an HTTP success, yet the
code returns `None` — the Empty outcome — and not a Failure carrying the
last error: no exception was recorded, so lines 148-151 fall through to
`return None`. -/
theorem claim3_counterexample :
    (fetchEpaData credsOk script3RL 3).result = .noData
    ∧ (fetchEpaData credsOk script3RL 3).result.isFailure = false := by
  decide

/-- Claim C3, amended: when the default 3-attempt ceiling is exhausted
without an HTTP success, the Fetcher raises the last non-rate-limit error if
any attempt saw one (non-rate-limit errors sleep a fixed 1 second except
after the final attempt, rate limits sleep `2 ** attempt`), but if every
exhausting response was a rate-limit signal it returns `None` — the Empty
outcome — rather than a Failure. -/
theorem claim3_amended (creds : Creds) (hc : credMissing creds = false)
    (s : Nat → ApiResponse) (h0 : isErrorResp (s 0) = true)
    (h1 : isErrorResp (s 1) = true) (h2 : isErrorResp (s 2) = true) :
    fetchEpaData creds s 3 =
      { result := expectedExhaustResult s, sleeps := exhaustSleeps3 s,
        attempts := 3 }
    ∧ (expectedExhaustResult s = .noData ↔
        s 0 = .rateLimit ∧ s 1 = .rateLimit ∧ s 2 = .rateLimit) := by
  have e : fetchEpaData creds s 3 = fetchGo s 3 [0, 1, 2] none [] := by
    simp only [fetchEpaData, hc, Bool.false_eq_true, if_false, range_three]
  rw [e]
  cases hs0 : s 0 <;> cases hs1 : s 1 <;> cases hs2 : s 2 <;>
    simp_all [fetchGo, isErrorResp, exhaustSleeps3, retrySleeps,
      expectedExhaustResult, lastExcOf3, errOf]

/-- Claim C3, witness: a run whose attempts see a transport error, a 500,
and a rate limit raises the 500 — the last recorded error — after sleeping
1s, 1s, 4s. -/
theorem claim3_witness :
    credMissing credsOk = false
    ∧ fetchEpaData credsOk mixedErrScript 3 =
        { result := expectedExhaustResult mixedErrScript,
          sleeps := exhaustSleeps3 mixedErrScript, attempts := 3 }
    ∧ expectedExhaustResult mixedErrScript = .raised (.requestError 500)
    ∧ exhaustSleeps3 mixedErrScript = [1, 1, 4] :=
  ⟨by decide,
   (claim3_amended credsOk (by decide) mixedErrScript (by decide) (by decide)
      (by decide)).1,
   by decide, by decide⟩

/-! ## Claim C1 — partial-failure policy of the orchestrator -/

/-- Claim C1, counterexample: a run whose single WorkUnit returns Empty
(`fetch_epa_data` returns `None`) records no error at all, so the error
list's size (0) differs from the WorkUnit count (1) — yet the orchestrator
still raises the hard "no data acquired" failure, because `all_data` is
empty.  The claimed "if and only if the error list's size equals the total
WorkUnit count" is therefore false. -/
theorem claim1_counterexample :
    loadPollutionData credsOk emptyFetch [cityLA] [pm25] [2000] =
      .error (.totalFailure [])
    ∧ failureLog emptyFetch (workUnits [cityLA] [pm25] [2000]) = []
    ∧ (workUnits [cityLA] [pm25] [2000]).length = 1 := by
  decide

/-- Claim C1, amended: a Failure on one WorkUnit does not abort the
remaining WorkUnits — every failure is appended to the error list tagged
with its WorkUnit and the run continues — and the orchestrator raises the
hard "no data acquired" failure, summarizing the first 10 recorded errors,
if and only if no WorkUnit produced a non-empty Success batch (so in
particular when all units fail, but also when units merely return Empty);
whenever at least one unit succeeds with records it returns the dataset of
all successful units' records together with the full error log. -/
theorem claim1_amended (creds : Creds) (fetch : WorkUnit → FetchSim)
    (cities : List City) (pollutants : List Pollutant) (years : List Nat)
    (hc : credMissing creds = false) :
    (loadPollutionData creds fetch cities pollutants years =
        .error (.totalFailure
          ((failureLog fetch (workUnits cities pollutants years)).take 10))
      ↔ successBatches fetch (workUnits cities pollutants years) = [])
    ∧ (successBatches fetch (workUnits cities pollutants years) ≠ [] →
        loadPollutionData creds fetch cities pollutants years =
          .ok ((successBatches fetch (workUnits cities pollutants years)).flatten,
               failureLog fetch (workUnits cities pollutants years))) := by
  have e := foldl_stepUnit fetch (workUnits cities pollutants years) ⟨[], [], 0⟩
  have key : loadPollutionData creds fetch cities pollutants years =
      if (successBatches fetch (workUnits cities pollutants years)).isEmpty
      then .error (.totalFailure
        ((failureLog fetch (workUnits cities pollutants years)).take 10))
      else .ok ((successBatches fetch (workUnits cities pollutants years)).flatten,
                failureLog fetch (workUnits cities pollutants years)) := by
    simp only [loadPollutionData, hc, Bool.false_eq_true, if_false, e,
      List.nil_append]
  rw [key]
  rcases hsb : successBatches fetch (workUnits cities pollutants years)
    with _ | ⟨b, bs⟩
  · simp [hsb]
  · simp [hsb]

/-- Claim C1, witness: two WorkUnits, the 2000 fetch raises and the 2001
fetch returns one record — the run returns the single-unit dataset together
with the single tagged error rather than aborting. -/
theorem claim1_witness :
    credMissing credsOk = false
    ∧ successBatches mixedFetch (workUnits [cityLA] [pm25] [2000, 2001]) ≠ []
    ∧ loadPollutionData credsOk mixedFetch [cityLA] [pm25] [2000, 2001] =
        .ok ((successBatches mixedFetch
                (workUnits [cityLA] [pm25] [2000, 2001])).flatten,
             failureLog mixedFetch (workUnits [cityLA] [pm25] [2000, 2001])) :=
  ⟨by decide, by decide,
   (claim1_amended credsOk mixedFetch [cityLA] [pm25] [2000, 2001]
      (by decide)).2 (by decide)⟩

/-! ## Claim C6 — missing credentials fail immediately -/

/-- Claim C6: with a missing or empty credential pair, the Fetcher raises
the distinct configuration-error kind with zero requests issued and zero
sleeps, its behaviour is independent of whatever the network would have
answered, and the Orchestrator likewise fails with the configuration error
irrespective of its fetch oracle. -/
theorem claim6 (creds : Creds) (hc : credMissing creds = true)
    (s s' : Nat → ApiResponse) (mr : Nat)
    (fetch fetch' : WorkUnit → FetchSim) (cities : List City)
    (pollutants : List Pollutant) (years : List Nat) :
    fetchEpaData creds s mr =
      { result := .raised .configError, sleeps := [], attempts := 0 }
    ∧ fetchEpaData creds s mr = fetchEpaData creds s' mr
    ∧ loadPollutionData creds fetch cities pollutants years =
        .error .configError
    ∧ loadPollutionData creds fetch cities pollutants years =
        loadPollutionData creds fetch' cities pollutants years := by
  simp [fetchEpaData, loadPollutionData, hc]

/-- Claim C6, witness: an empty-string email is a missing credential; both
entry points fail with the configuration error at once. -/
theorem claim6_witness :
    credMissing ⟨some "", some "abc123"⟩ = true
    ∧ fetchEpaData ⟨some "", some "abc123"⟩ script3RL 3 =
        { result := .raised .configError, sleeps := [], attempts := 0 }
    ∧ loadPollutionData ⟨some "", some "abc123"⟩ emptyFetch [cityLA] [pm25]
        [2000] = .error .configError :=
  ⟨by decide,
   (claim6 ⟨some "", some "abc123"⟩ (by decide) script3RL script3RL 3
      emptyFetch emptyFetch [cityLA] [pm25] [2000]).1,
   (claim6 ⟨some "", some "abc123"⟩ (by decide) script3RL script3RL 3
      emptyFetch emptyFetch [cityLA] [pm25] [2000]).2.2.1⟩

/-! ## Claim C8 — every WorkUnit attempted exactly once -/

/-- Claim C8: for duplicate-free catalogs the enumerated WorkUnit list has
the full cross-product size with no duplicate unit, the loop's
`completed_requests` counter ends at exactly that size, and the Success,
Empty and Failure outcome counts partition it. -/
theorem claim8 (cities : List City) (pollutants : List Pollutant)
    (years : List Nat) (fetch : WorkUnit → FetchSim) (h1 : cities.Nodup)
    (h2 : pollutants.Nodup) (h3 : years.Nodup) :
    (workUnits cities pollutants years).length =
      cities.length * pollutants.length * years.length
    ∧ (workUnits cities pollutants years).Nodup
    ∧ ((workUnits cities pollutants years).foldl (stepUnit fetch)
        ⟨[], [], 0⟩).completed = (workUnits cities pollutants years).length
    ∧ ((workUnits cities pollutants years).map
          (fun u => classify (fetch u))).count .success
        + ((workUnits cities pollutants years).map
            (fun u => classify (fetch u))).count .empty
        + ((workUnits cities pollutants years).map
            (fun u => classify (fetch u))).count .failure
        = (workUnits cities pollutants years).length := by
  refine ⟨workUnits_length cities pollutants years,
    workUnits_nodup h1 h2 h3, ?_, ?_⟩
  · simp [foldl_stepUnit]
  · simpa using count_outcomes
      ((workUnits cities pollutants years).map (fun u => classify (fetch u)))

/-- Claim C8, witness: a 2 × 1 × 2 catalog yields 4 pairwise-distinct
WorkUnits, all attempted, with outcome counts summing to 4. -/
theorem claim8_witness :
    ([cityLA, cityNY] : List City).Nodup
    ∧ ([pm25] : List Pollutant).Nodup
    ∧ ([2000, 2001] : List Nat).Nodup
    ∧ ((workUnits [cityLA, cityNY] [pm25] [2000, 2001]).length = 2 * 1 * 2
        ∧ (workUnits [cityLA, cityNY] [pm25] [2000, 2001]).Nodup
        ∧ ((workUnits [cityLA, cityNY] [pm25] [2000, 2001]).foldl
            (stepUnit emptyFetch) ⟨[], [], 0⟩).completed =
          (workUnits [cityLA, cityNY] [pm25] [2000, 2001]).length
        ∧ ((workUnits [cityLA, cityNY] [pm25] [2000, 2001]).map
              (fun u => classify (emptyFetch u))).count .success
            + ((workUnits [cityLA, cityNY] [pm25] [2000, 2001]).map
                (fun u => classify (emptyFetch u))).count .empty
            + ((workUnits [cityLA, cityNY] [pm25] [2000, 2001]).map
                (fun u => classify (emptyFetch u))).count .failure
            = (workUnits [cityLA, cityNY] [pm25] [2000, 2001]).length) :=
  ⟨by decide, by decide, by decide,
   claim8 [cityLA, cityNY] [pm25] [2000, 2001] emptyFetch (by decide)
     (by decide) (by decide)⟩

/-! ## Claim C4 — the TTL gate of the cached loader -/

/-- Claim C4: with both cache files present and parseable and an age
strictly below 365 days, the snapshot's rows are returned with no network
use, independently of the credentials and the fetch oracle; with an age of
365 days or more, an absent file, a corrupt metadata file, or a corrupt CSV,
the full acquisition path runs instead — so cache corruption is caught, not
fatal. -/
theorem claim4 (nowDay ts : Int) (rows : List MeasurementRow) (creds : Creds)
    (fetch : WorkUnit → FetchSim) (cities : List City)
    (pollutants : List Pollutant) (years : List Nat) (pf : Bool) :
    (nowDay - ts < 365 →
      loadPollutionDataWithCache nowDay ⟨some (.okCsv rows), some (.okMeta ts)⟩
          creds fetch cities pollutants years pf =
        .ok ⟨rows, false, true, false⟩)
    ∧ (365 ≤ nowDay - ts →
      loadPollutionDataWithCache nowDay ⟨some (.okCsv rows), some (.okMeta ts)⟩
          creds fetch cities pollutants years pf =
        acquireFresh creds fetch cities pollutants years pf)
    ∧ loadPollutionDataWithCache nowDay ⟨none, some (.okMeta ts)⟩ creds fetch
        cities pollutants years pf =
      acquireFresh creds fetch cities pollutants years pf
    ∧ loadPollutionDataWithCache nowDay ⟨some (.okCsv rows), none⟩ creds fetch
        cities pollutants years pf =
      acquireFresh creds fetch cities pollutants years pf
    ∧ loadPollutionDataWithCache nowDay ⟨some (.okCsv rows), some .corrupt⟩
        creds fetch cities pollutants years pf =
      acquireFresh creds fetch cities pollutants years pf
    ∧ loadPollutionDataWithCache nowDay ⟨some .corrupt, some (.okMeta ts)⟩
        creds fetch cities pollutants years pf =
      acquireFresh creds fetch cities pollutants years pf := by
  refine ⟨fun h => ?_, fun h => ?_, ?_, ?_, ?_, ?_⟩
  · simp only [loadPollutionDataWithCache, cacheLookup]
    rw [if_pos h]
  · simp only [loadPollutionDataWithCache, cacheLookup]
    rw [if_neg (by omega)]
  · rfl
  · rfl
  · rfl
  · simp only [loadPollutionDataWithCache, cacheLookup]
    rcases lt_or_ge (nowDay - ts) 365 with hlt | hge
    · rw [if_pos hlt]
    · rw [if_neg (by omega)]

/-- Claim C4, witness: a snapshot 366 days old triggers re-acquisition, one
364 days old is served as fresh with no network use. -/
theorem claim4_witness :
    ((366 : Int) - 0 < 365 → False)
    ∧ loadPollutionDataWithCache 366 ⟨some (.okCsv demoRows), some (.okMeta 0)⟩
        credsOk goodFetch [cityLA] [pm25] [2000] false =
      acquireFresh credsOk goodFetch [cityLA] [pm25] [2000] false
    ∧ (364 : Int) - 0 < 365
    ∧ loadPollutionDataWithCache 364 ⟨some (.okCsv demoRows), some (.okMeta 0)⟩
        credsOk goodFetch [cityLA] [pm25] [2000] false =
      .ok ⟨demoRows, false, true, false⟩ :=
  ⟨by omega,
   (claim4 366 0 demoRows credsOk goodFetch [cityLA] [pm25] [2000] false).2.1
     (by omega),
   by omega,
   (claim4 364 0 demoRows credsOk goodFetch [cityLA] [pm25] [2000] false).1
     (by omega)⟩

/-! ## Claim C9 — persistence failure is non-fatal -/

/-- Claim C9: on a cache miss, when the acquisition itself succeeds but the
persist step fails, the cached loader still returns the freshly acquired
dataset; the failure is only surfaced as the warning of line 197 and never
propagated as an error to the caller. -/
theorem claim9 (nowDay : Int) (files : CacheFiles) (creds : Creds)
    (fetch : WorkUnit → FetchSim) (cities : List City)
    (pollutants : List Pollutant) (years : List Nat)
    (recs : List MeasurementRow) (errs : List ErrEntry)
    (h1 : cacheLookup nowDay files = none)
    (h2 : loadPollutionData creds fetch cities pollutants years =
      .ok (recs, errs)) :
    loadPollutionDataWithCache nowDay files creds fetch cities pollutants
      years true = .ok ⟨recs, true, false, true⟩ := by
  simp [loadPollutionDataWithCache, h1, acquireFresh, h2]

/-- Claim C9, witness: an absent cache plus a one-row acquisition with a
failing persist step still hands the row back with the warning flag set. -/
theorem claim9_witness :
    cacheLookup 400 ⟨none, none⟩ = none
    ∧ loadPollutionData credsOk goodFetch [cityLA] [pm25] [2000] =
        .ok ([⟨2000, "Los Angeles", "06", dec4 340522, dec4 (-1182437), "PM2.5", 12,
               "μg/m³"⟩], [])
    ∧ loadPollutionDataWithCache 400 ⟨none, none⟩ credsOk goodFetch [cityLA]
        [pm25] [2000] true =
      .ok ⟨[⟨2000, "Los Angeles", "06", dec4 340522, dec4 (-1182437), "PM2.5", 12,
             "μg/m³"⟩], true, false, true⟩ :=
  ⟨by decide, by decide,
   claim9 400 ⟨none, none⟩ credsOk goodFetch [cityLA] [pm25] [2000]
     [⟨2000, "Los Angeles", "06", dec4 340522, dec4 (-1182437), "PM2.5", 12, "μg/m³"⟩]
     [] (by decide) (by decide)⟩

/-! ## Claim C7 — the persist step is not atomic -/

/-- Claim C7, counterexample: persisting a fresh snapshot over a prior one
passes through the state written by line 188 alone — new CSV beside the old
metadata — which is neither the prior snapshot nor the complete new one, so
the write sequence of lines 186-197 (two sequential in-place overwrites,
with no write-to-temp-then-rename) is not atomic: a reader between the two
writes observes a half-written snapshot. -/
theorem claim7_counterexample :
    ¬ AtomicPersist (saveCacheStates fsPrior freshPersistRows 400) := by
  decide

/-- Claim C7, amended: the persist step writes the data file and then the
metadata file in place, in that order; whenever the new CSV content differs
from the prior one and the new metadata differs from the prior metadata, the
intermediate state mixes the new data file with the prior metadata, so the
persist is not atomic and a concurrent reader can observe a half-written
snapshot.  The step's only safety property is the one of claim C9: persist
exceptions are caught and the fresh dataset is still returned. -/
theorem claim7_amended (init : FsState) (rows : List MeasurementRow)
    (nowDay : Int) (h1 : init.csvFile ≠ some rows)
    (h2 : init.metaFile ≠ some (mkCacheMeta nowDay rows)) :
    saveCacheStates init rows nowDay =
      [init, ⟨some rows, init.metaFile⟩,
       ⟨some rows, some (mkCacheMeta nowDay rows)⟩]
    ∧ ¬ AtomicPersist (saveCacheStates init rows nowDay) := by
  obtain ⟨icsv, imeta⟩ := init
  simp only [FsState.mk.injEq] at h1 h2 ⊢
  refine ⟨rfl, fun hA => ?_⟩
  have hm := hA ⟨some rows, imeta⟩ (by simp [saveCacheStates])
  rcases hm with hm | hm <;>
    simp_all [saveCacheStates, FsState.mk.injEq]

/-- Claim C7, witness: the amended statement at a concrete prior snapshot
and a concrete fresh dataset. -/
theorem claim7_witness :
    (fsPrior.csvFile = some freshPersistRows → False)
    ∧ (fsPrior.metaFile = some (mkCacheMeta 400 freshPersistRows) → False)
    ∧ saveCacheStates fsPrior freshPersistRows 400 =
        [fsPrior, ⟨some freshPersistRows, fsPrior.metaFile⟩,
         ⟨some freshPersistRows, some (mkCacheMeta 400 freshPersistRows)⟩]
    ∧ ¬ AtomicPersist (saveCacheStates fsPrior freshPersistRows 400) :=
  ⟨by decide, by decide,
   (claim7_amended fsPrior freshPersistRows 400 (by decide) (by decide)).1,
   (claim7_amended fsPrior freshPersistRows 400 (by decide) (by decide)).2⟩

/-! ## Claim C5 — the resolver's tiering never fails -/

/-- Claim C5: for every (county, state) pair and every behaviour of the
remote geocoder, `geocode_county` (with its default fallback) returns
coordinates and never raises: a pair in the static table is answered from
the table with zero network calls; otherwise exactly one geocoding request
is made and a positive match returns the first match's coordinates, while a
timeout, transport error, non-200 status or empty match list yields the
continental-center sentinel together with the warning. -/
theorem claim5 (county state : String) (resp : CensusResp) :
    (∃ g, geocodeCounty county state resp true = .ok g)
    ∧ (∀ p, lookupCounty county state = some p →
        geocodeCounty county state resp true = .ok ⟨p, 0, false⟩)
    ∧ (lookupCounty county state = none → ∀ m ms,
        resp = .okResp (m :: ms) →
        geocodeCounty county state resp true = .ok ⟨m, 1, false⟩)
    ∧ (lookupCounty county state = none → geocodeCountyCensus resp = none →
        geocodeCounty county state resp true = .ok ⟨US_CENTER, 1, true⟩) := by
  refine ⟨?_, ?_, ?_, ?_⟩
  · cases hl : lookupCounty county state with
    | some p => exact ⟨⟨p, 0, false⟩, by simp [geocodeCounty, hl]⟩
    | none =>
      cases hresp : geocodeCountyCensus resp with
      | some c => exact ⟨⟨c, 1, false⟩, by simp [geocodeCounty, hl, hresp]⟩
      | none => exact ⟨⟨US_CENTER, 1, true⟩, by simp [geocodeCounty, hl, hresp]⟩
  · intro p hp
    simp [geocodeCounty, hp]
  · intro hl m ms hr
    subst hr
    simp [geocodeCounty, hl, geocodeCountyCensus]
  · intro hl hn
    simp [geocodeCounty, hl, hn]

/-- Claim C5, witness: the static pair (Loudoun, VA) resolves from the table
with zero network calls even when the geocoder would raise, and an unknown
pair with a raising geocoder gets the sentinel and the warning after one
call. -/
theorem claim5_witness :
    lookupCounty "Loudoun" "VA" = some (dec4 390438, dec4 (-774874))
    ∧ geocodeCounty "Loudoun" "VA" .excRaised true =
        .ok ⟨(dec4 390438, dec4 (-774874)), 0, false⟩
    ∧ lookupCounty "Atlantis" "ZZ" = none
    ∧ geocodeCountyCensus .excRaised = none
    ∧ geocodeCounty "Atlantis" "ZZ" .excRaised true =
        .ok ⟨US_CENTER, 1, true⟩ :=
  ⟨by decide,
   (claim5 "Loudoun" "VA" .excRaised).2.1 (dec4 390438, dec4 (-774874))
     (by decide),
   by decide, by decide,
   (claim5 "Atlantis" "ZZ" .excRaised).2.2.2 (by decide) (by decide)⟩

/-! ## Claim C10 — null-county rows keep the initialized coordinates -/

/-- The rewrite loop of lines 220-223 never touches a row whose county or
state cell is null: a null cell compares unequal to every memoized key. -/
lemma applyCoords_null (memo : List ((String × String) × (ℚ × ℚ)))
    (d : List GeoRow) (i : Nat) (r : GeoRow) (hd : d[i]? = some r)
    (hnull : r.county = none ∨ r.state = none) :
    (applyCoords memo d)[i]? = some r := by
  induction memo generalizing d with
  | nil => simpa [applyCoords] using hd
  | cons e rest ih =>
    have step : applyCoords (e :: rest) d =
        applyCoords rest (d.map (fun r =>
          if r.county = some e.1.1 ∧ r.state = some e.1.2 then
            { r with latitude := e.2.1, longitude := e.2.2 }
          else r)) := by
      simp [applyCoords]
    rw [step]
    refine ih _ ?_
    rw [List.getElem?_map, hd]
    rcases hnull with hn | hn <;> simp [hn]

/-- Claim C10: in the batch enrichment, a row whose county or state cell is
null is skipped by the resolution loop and keeps the initialized (0, 0)
coordinates in the returned DataFrame — it receives neither a geocoded
coordinate nor the continental-center sentinel — and no reported pair
identifies it, whatever the geocoding oracle does. -/
theorem claim10 (g : String → String → Except String (ℚ × ℚ))
    (df : List GeoRow) (i : Nat) (r : GeoRow) (hr : df[i]? = some r)
    (hnull : r.county = none ∨ r.state = none) :
    (addCoordinatesToDataframe g df).1[i]? =
      some { r with latitude := 0, longitude := 0 }
    ∧ ∀ w ∈ (addCoordinatesToDataframe g df).2,
        ¬(some w.1 = r.county ∧ some w.2 = r.state) := by
  constructor
  · unfold addCoordinatesToDataframe
    refine applyCoords_null _ _ i _ ?_ ?_
    · rw [List.getElem?_map, hr]
      rfl
    · rcases hnull with hn | hn
      · exact Or.inl hn
      · exact Or.inr hn
  · intro w _ hw
    rcases hnull with hn | hn
    · rw [hn] at hw
      exact Option.noConfusion hw.1
    · rw [hn] at hw
      exact Option.noConfusion hw.2

/-- Claim C10, witness: a two-row frame whose first row has a null county —
the second row is geocoded while the first keeps (0, 0) and no reported
pair names it. -/
theorem claim10_witness :
    ([nullCountyRow, scRow] : List GeoRow)[0]? = some nullCountyRow
    ∧ (nullCountyRow.county = none ∨ nullCountyRow.state = none)
    ∧ (addCoordinatesToDataframe constGeo [nullCountyRow, scRow]).1[0]? =
        some { nullCountyRow with latitude := 0, longitude := 0 }
    ∧ (addCoordinatesToDataframe constGeo [nullCountyRow, scRow]).2 = [] :=
  ⟨by decide, by decide,
   (claim10 constGeo [nullCountyRow, scRow] 0 nullCountyRow (by decide)
      (by decide)).1,
   by decide⟩

end PollutionApp
